/-
  Spec2Proof.lean — verification of the asupersync ANSI C core against its
  natural-language specification.

  Shallow embedding conventions:
  * C enums become Lean inductives with the source's constructor names and a
    numeric-code function mirroring the source's enum values.
  * Fixed-width C integers become Nat with explicit `% 2^w` where the source
    performs a narrowing cast; bitwise operators are kept as in the source.
  * C functions returning a status and writing through an out-pointer become
    Lean functions returning the status paired with the written value; a NULL
    out-pointer is modelled by a Bool flag.
  * Code of the repository whose implementation file is absent from the
    snapshot (only headers, callers or tests are present) is modelled from the
    spec; every such definition carries a doc comment starting
    `Modelled from the spec:`.
-/
import Mathlib

/-! ## Status taxonomy (src/include/asx/asx_status.h, lines 18-91) -/

/-- The `asx_status` enum exactly as declared in `src/include/asx/asx_status.h`:
44 constructors, from `ASX_OK` to `ASX_E_ALLOCATOR_SEALED`. -/
inductive asx_status where
  | ASX_OK
  | ASX_E_PENDING
  | ASX_E_INVALID_ARGUMENT
  | ASX_E_INVALID_STATE
  | ASX_E_NOT_FOUND
  | ASX_E_ALREADY_EXISTS
  | ASX_E_INVALID_TRANSITION
  | ASX_E_REGION_NOT_FOUND
  | ASX_E_REGION_CLOSED
  | ASX_E_REGION_AT_CAPACITY
  | ASX_E_REGION_NOT_OPEN
  | ASX_E_ADMISSION_CLOSED
  | ASX_E_ADMISSION_LIMIT
  | ASX_E_TASK_NOT_FOUND
  | ASX_E_SCHEDULER_UNAVAILABLE
  | ASX_E_NAME_CONFLICT
  | ASX_E_TASK_NOT_COMPLETED
  | ASX_E_POLL_BUDGET_EXHAUSTED
  | ASX_E_OBLIGATION_ALREADY_RESOLVED
  | ASX_E_UNRESOLVED_OBLIGATIONS
  | ASX_E_CANCELLED
  | ASX_E_WITNESS_PHASE_REGRESSION
  | ASX_E_WITNESS_REASON_WEAKENED
  | ASX_E_WITNESS_TASK_MISMATCH
  | ASX_E_WITNESS_REGION_MISMATCH
  | ASX_E_WITNESS_EPOCH_MISMATCH
  | ASX_E_DISCONNECTED
  | ASX_E_WOULD_BLOCK
  | ASX_E_CHANNEL_FULL
  | ASX_E_CHANNEL_NOT_DRAINED
  | ASX_E_TIMER_NOT_FOUND
  | ASX_E_TIMERS_PENDING
  | ASX_E_TASKS_STILL_ACTIVE
  | ASX_E_OBLIGATIONS_UNRESOLVED
  | ASX_E_REGIONS_NOT_CLOSED
  | ASX_E_INCOMPLETE_CHILDREN
  | ASX_E_QUIESCENCE_NOT_REACHED
  | ASX_E_QUIESCENCE_TASKS_LIVE
  | ASX_E_RESOURCE_EXHAUSTED
  | ASX_E_STALE_HANDLE
  | ASX_E_HOOK_MISSING
  | ASX_E_HOOK_INVALID
  | ASX_E_DETERMINISM_VIOLATION
  | ASX_E_ALLOCATOR_SEALED
  deriving DecidableEq, Repr, Fintype

open asx_status

/-- Numeric value of each status code, exactly as assigned in
`src/include/asx/asx_status.h`. -/
def asx_status_code : asx_status → Nat
  | ASX_OK => 0
  | ASX_E_PENDING => 1
  | ASX_E_INVALID_ARGUMENT => 100
  | ASX_E_INVALID_STATE => 101
  | ASX_E_NOT_FOUND => 102
  | ASX_E_ALREADY_EXISTS => 103
  | ASX_E_INVALID_TRANSITION => 200
  | ASX_E_REGION_NOT_FOUND => 300
  | ASX_E_REGION_CLOSED => 301
  | ASX_E_REGION_AT_CAPACITY => 302
  | ASX_E_REGION_NOT_OPEN => 303
  | ASX_E_ADMISSION_CLOSED => 304
  | ASX_E_ADMISSION_LIMIT => 305
  | ASX_E_TASK_NOT_FOUND => 400
  | ASX_E_SCHEDULER_UNAVAILABLE => 401
  | ASX_E_NAME_CONFLICT => 402
  | ASX_E_TASK_NOT_COMPLETED => 403
  | ASX_E_POLL_BUDGET_EXHAUSTED => 404
  | ASX_E_OBLIGATION_ALREADY_RESOLVED => 500
  | ASX_E_UNRESOLVED_OBLIGATIONS => 501
  | ASX_E_CANCELLED => 600
  | ASX_E_WITNESS_PHASE_REGRESSION => 601
  | ASX_E_WITNESS_REASON_WEAKENED => 602
  | ASX_E_WITNESS_TASK_MISMATCH => 603
  | ASX_E_WITNESS_REGION_MISMATCH => 604
  | ASX_E_WITNESS_EPOCH_MISMATCH => 605
  | ASX_E_DISCONNECTED => 700
  | ASX_E_WOULD_BLOCK => 701
  | ASX_E_CHANNEL_FULL => 702
  | ASX_E_CHANNEL_NOT_DRAINED => 703
  | ASX_E_TIMER_NOT_FOUND => 800
  | ASX_E_TIMERS_PENDING => 801
  | ASX_E_TASKS_STILL_ACTIVE => 900
  | ASX_E_OBLIGATIONS_UNRESOLVED => 901
  | ASX_E_REGIONS_NOT_CLOSED => 902
  | ASX_E_INCOMPLETE_CHILDREN => 903
  | ASX_E_QUIESCENCE_NOT_REACHED => 904
  | ASX_E_QUIESCENCE_TASKS_LIVE => 905
  | ASX_E_RESOURCE_EXHAUSTED => 1000
  | ASX_E_STALE_HANDLE => 1100
  | ASX_E_HOOK_MISSING => 1200
  | ASX_E_HOOK_INVALID => 1201
  | ASX_E_DETERMINISM_VIOLATION => 1202
  | ASX_E_ALLOCATOR_SEALED => 1203

/-! ## Lifecycle states (src/include/asx/core/transition.h, lines 18-42) -/

/-- Region lifecycle states, exactly the five constructors of the
`asx_region_state` enum in `src/include/asx/core/transition.h` (the source
enum has no `Poisoned` value). -/
inductive asx_region_state where
  | ASX_REGION_OPEN
  | ASX_REGION_CLOSING
  | ASX_REGION_DRAINING
  | ASX_REGION_FINALIZING
  | ASX_REGION_CLOSED
  deriving DecidableEq, Repr, Fintype

open asx_region_state

/-- Task lifecycle states from `src/include/asx/core/transition.h`. -/
inductive asx_task_state where
  | ASX_TASK_CREATED
  | ASX_TASK_RUNNING
  | ASX_TASK_CANCEL_REQUESTED
  | ASX_TASK_CANCELLING
  | ASX_TASK_FINALIZING
  | ASX_TASK_COMPLETED
  deriving DecidableEq, Repr, Fintype

/-- Obligation lifecycle states from `src/include/asx/core/transition.h`. -/
inductive asx_obligation_state where
  | ASX_OBLIGATION_RESERVED
  | ASX_OBLIGATION_COMMITTED
  | ASX_OBLIGATION_ABORTED
  | ASX_OBLIGATION_LEAKED
  deriving DecidableEq, Repr, Fintype

open asx_obligation_state

/-- Modelled from the spec: the body of `asx_region_transition_check` is not
in the snapshot (only its declaration in `transition.h` and its tests are).
Spec 4.2 lists the legal region transitions; of those, the pairs expressible
over the source enum (which has no Poisoned state) are the four chain steps
`Open→Closing, Closing→Draining, Draining→Finalizing, Finalizing→Closed`.
Illegal pairs produce `ASX_E_INVALID_TRANSITION`. -/
def asx_region_transition_check (f t : asx_region_state) : asx_status :=
  match f, t with
  | ASX_REGION_OPEN, ASX_REGION_CLOSING => ASX_OK
  | ASX_REGION_CLOSING, ASX_REGION_DRAINING => ASX_OK
  | ASX_REGION_DRAINING, ASX_REGION_FINALIZING => ASX_OK
  | ASX_REGION_FINALIZING, ASX_REGION_CLOSED => ASX_OK
  | _, _ => ASX_E_INVALID_TRANSITION

/-- Modelled from the spec: the body of `asx_obligation_transition_check` is
not in the snapshot (only its declaration and tests are). Spec 4.2:
"Obligation: `Reserved→Committed, Reserved→Aborted` only"; every other pair
yields `ASX_E_INVALID_TRANSITION`. -/
def asx_obligation_transition_check (f t : asx_obligation_state) : asx_status :=
  match f, t with
  | ASX_OBLIGATION_RESERVED, ASX_OBLIGATION_COMMITTED => ASX_OK
  | ASX_OBLIGATION_RESERVED, ASX_OBLIGATION_ABORTED => ASX_OK
  | _, _ => ASX_E_INVALID_TRANSITION

/-- Obligation record: the state field of an obligation slot, as manipulated
by `asx_obligation_commit` / `asx_obligation_abort`. -/
structure asx_obligation where
  state : asx_obligation_state
  region : Nat
  deriving DecidableEq, Repr

/-- Modelled from the spec: `asx_obligation_commit` (implementation absent
from the snapshot). Spec 4.6: "Commit and abort each validate the state
transition and record the event; double-commit, double-abort, and
commit-after-abort all fail with `InvalidTransition` without mutating
state." The transition is validated with the authority table before
mutating. -/
def asx_obligation_commit (ob : asx_obligation) : asx_status × asx_obligation :=
  match asx_obligation_transition_check ob.state ASX_OBLIGATION_COMMITTED with
  | ASX_OK => (ASX_OK, { ob with state := ASX_OBLIGATION_COMMITTED })
  | e => (e, ob)

/-- Modelled from the spec: `asx_obligation_abort`, symmetric to commit. -/
def asx_obligation_abort (ob : asx_obligation) : asx_status × asx_obligation :=
  match asx_obligation_transition_check ob.state ASX_OBLIGATION_ABORTED with
  | ASX_OK => (ASX_OK, { ob with state := ASX_OBLIGATION_ABORTED })
  | e => (e, ob)

/-! ## Cancellation lattice (src/include/asx/core/cancel.h) -/

/-- Cancellation kinds, exactly the 11 constructors of `asx_cancel_kind`
in `src/include/asx/core/cancel.h`. -/
inductive asx_cancel_kind where
  | ASX_CANCEL_USER
  | ASX_CANCEL_TIMEOUT
  | ASX_CANCEL_DEADLINE
  | ASX_CANCEL_POLL_QUOTA
  | ASX_CANCEL_COST_BUDGET
  | ASX_CANCEL_FAIL_FAST
  | ASX_CANCEL_RACE_LOST
  | ASX_CANCEL_LINKED_EXIT
  | ASX_CANCEL_PARENT
  | ASX_CANCEL_RESOURCE
  | ASX_CANCEL_SHUTDOWN
  deriving DecidableEq, Repr, Fintype

open asx_cancel_kind

/-- Modelled from the spec: the body of `asx_cancel_severity` is not in the
snapshot (only its declaration is). Spec 4.5 and the per-kind comments in
`cancel.h` fix the table: `User=0, Timeout=1, Deadline=1, PollQuota=2,
CostBudget=2, FailFast=3, RaceLost=3, LinkedExit=3, Parent=4, Resource=4,
Shutdown=5`. -/
def asx_cancel_severity : asx_cancel_kind → Nat
  | ASX_CANCEL_USER => 0
  | ASX_CANCEL_TIMEOUT => 1
  | ASX_CANCEL_DEADLINE => 1
  | ASX_CANCEL_POLL_QUOTA => 2
  | ASX_CANCEL_COST_BUDGET => 2
  | ASX_CANCEL_FAIL_FAST => 3
  | ASX_CANCEL_RACE_LOST => 3
  | ASX_CANCEL_LINKED_EXIT => 3
  | ASX_CANCEL_PARENT => 4
  | ASX_CANCEL_RESOURCE => 4
  | ASX_CANCEL_SHUTDOWN => 5

/-- Cancel reason record from `src/include/asx/core/cancel.h`: kind, origin
region and task ids, timestamp, optional message, optional (bounded) parent
cause chain, truncated flag. -/
inductive asx_cancel_reason where
  | mk (kind : asx_cancel_kind) (origin_region : Nat) (origin_task : Nat)
       (timestamp : Nat) (message : Option String)
       (cause : Option asx_cancel_reason) (truncated : Bool)
  deriving Repr

def asx_cancel_reason.kind : asx_cancel_reason → asx_cancel_kind
  | .mk k _ _ _ _ _ _ => k

def asx_cancel_reason.timestamp : asx_cancel_reason → Nat
  | .mk _ _ _ ts _ _ _ => ts

/-- Modelled from the spec: the body of `asx_cancel_strengthen` is not in the
snapshot (only its declaration is). Spec 4.5: "`strengthen(a, b)` returns `a`
if `severity(a) > severity(b)`, returns `b` if greater, and breaks ties by
the earlier timestamp (left-biased on exact equality including timestamp)." -/
def asx_cancel_strengthen (a b : asx_cancel_reason) : asx_cancel_reason :=
  if asx_cancel_severity a.kind > asx_cancel_severity b.kind then a
  else if asx_cancel_severity b.kind > asx_cancel_severity a.kind then b
  else if a.timestamp ≤ b.timestamp then a
  else b

/-! ## Generation-tagged handles (src/include/asx/asx_ids.h) -/

/-- `asx_handle_pack` from `src/include/asx/asx_ids.h`:
`((uint64_t)type_tag << 48) | ((uint64_t)state_mask << 32) | (uint64_t)index`.
The `% 65536` / `% 4294967296` reductions model the `uint16_t` / `uint32_t`
parameter types. -/
def asx_handle_pack (type_tag state_mask index : Nat) : Nat :=
  ((type_tag % 65536) <<< 48) ||| ((state_mask % 65536) <<< 32) ||| (index % 4294967296)

/-- `asx_handle_type_tag`: `(uint16_t)(h >> 48)` with `h : uint64_t`. -/
def asx_handle_type_tag (h : Nat) : Nat :=
  ((h % 18446744073709551616) >>> 48) % 65536

/-- `asx_handle_state_mask`: `(uint16_t)((h >> 32) & 0xFFFF)`. -/
def asx_handle_state_mask (h : Nat) : Nat :=
  ((h % 18446744073709551616) >>> 32) &&& 65535

/-- `asx_handle_index`: `(uint32_t)(h & 0xFFFFFFFF)`. -/
def asx_handle_index (h : Nat) : Nat :=
  (h % 18446744073709551616) &&& 4294967295

/-- Modelled from the spec: `asx_handle_pack_index` (used by
`tests/unit/core/test_handle_generation.c`, not declared in the snapshot's
`asx_ids.h`). The spec's handle layout `[... | (generation:16 | slot:16):32]`
fixes it as `(generation << 16) | slot` over 16-bit operands. -/
def asx_handle_pack_index (generation slot : Nat) : Nat :=
  ((generation % 65536) <<< 16) ||| (slot % 65536)

/-- Modelled from the spec: `asx_handle_generation` extracts the 16-bit
generation from bits 16..31 of a handle, per the spec's layout
`[type_tag:16 | state_mask:16 | (generation:16 | slot:16):32]`. -/
def asx_handle_generation (h : Nat) : Nat :=
  ((h % 18446744073709551616) >>> 16) % 65536

/-- Modelled from the spec: `asx_handle_slot` extracts the 16-bit slot index
from the low 16 bits of a handle, per the spec's layout. -/
def asx_handle_slot (h : Nat) : Nat :=
  (h % 18446744073709551616) % 65536

/-! ## Task-local error ledger (src/include/asx/asx_status.h, lines 101-180) -/

/-- One breadcrumb recorded by the error ledger, mirroring
`asx_error_ledger_entry` in `src/include/asx/asx_status.h`. -/
structure asx_error_ledger_entry where
  task_id : Nat
  status : asx_status
  operation : String
  file : String
  line : Nat
  sequence : Nat
  deriving DecidableEq, Repr

/-- Modelled from the spec: the global state of the error ledger subsystem
(implementation `error_ledger.c` absent from the snapshot; the header
declares bind/record/query and the spec fixes the semantics). `bound_task`
is the implicit task context set by `asx_error_ledger_bind_task`;
`entries` is the chronological record stream; `next_sequence` numbers
recorded entries. -/
structure asx_error_ledger where
  bound_task : Nat
  entries : List asx_error_ledger_entry
  next_sequence : Nat
  deriving DecidableEq, Repr

/-- Modelled from the spec: `asx_error_ledger_record_current` records
`(status, operation, file, line)` plus a sequence number under the currently
bound task context (spec 4.12: the ledger "records (status, operation,
source_location, sequence) as errors propagate"; it is strictly
observational). -/
def asx_error_ledger_record_current (status : asx_status)
    (operation file : String) (line : Nat)
    (L : asx_error_ledger) : asx_error_ledger :=
  { L with
    entries := L.entries ++
      [{ task_id := L.bound_task, status := status, operation := operation,
         file := file, line := line, sequence := L.next_sequence }]
    next_sequence := L.next_sequence + 1 }

/-- The `ASX_TRY(EXPR)` macro from `src/include/asx/asx_status.h`: the
expression's status is bound once; if it is not `ASX_OK` the macro records
`(status, #EXPR, __FILE__, __LINE__)` under the currently bound task and
returns that status to the caller (`some status`); otherwise execution
falls through (`none`) with the ledger untouched. -/
def ASX_TRY (status : asx_status) (operation file : String) (line : Nat)
    (L : asx_error_ledger) : asx_error_ledger × Option asx_status :=
  if status ≠ ASX_OK then
    (asx_error_ledger_record_current status operation file line L, some status)
  else
    (L, none)

/-! ## Profile identity (src/include/asx/runtime/profile_compat.h,
     src/src/runtime/profile_compat.c) -/

/- C enum-typed values that the source range-checks (`(int)id < 0 ||
   (int)id >= COUNT`) are embedded as `Int`, with the enum constants as
   named values, so that out-of-range casts such as `(asx_profile_id)99`
   in the tests are representable. -/

def ASX_PROFILE_ID_CORE : Int := 0
def ASX_PROFILE_ID_POSIX : Int := 1
def ASX_PROFILE_ID_WIN32 : Int := 2
def ASX_PROFILE_ID_FREESTANDING : Int := 3
def ASX_PROFILE_ID_EMBEDDED_ROUTER : Int := 4
def ASX_PROFILE_ID_HFT : Int := 5
def ASX_PROFILE_ID_AUTOMOTIVE : Int := 6
def ASX_PROFILE_ID_PARALLEL : Int := 7
def ASX_PROFILE_ID_COUNT : Int := 8

/-- `g_profile_names` from `profile_compat.c`. -/
def g_profile_names : List String :=
  ["CORE", "POSIX", "WIN32", "FREESTANDING", "EMBEDDED_ROUTER", "HFT",
   "AUTOMOTIVE", "PARALLEL"]

/-- `asx_profile_name` from `profile_compat.c`: "UNKNOWN" when out of range,
else the table entry. -/
def asx_profile_name (id : Int) : String :=
  if id < 0 || id ≥ ASX_PROFILE_ID_COUNT then "UNKNOWN"
  else g_profile_names.getD id.toNat "UNKNOWN"

/-! ## Overload catalog (src/include/asx/runtime/overload_catalog.h,
     src/src/runtime/overload_catalog.c) -/

def ASX_OVERLOAD_REJECT : Int := 0
def ASX_OVERLOAD_SHED_OLDEST : Int := 1
def ASX_OVERLOAD_BACKPRESSURE : Int := 2

def ASX_DEGRADE_NONE : Int := 0
def ASX_DEGRADE_SHED_TAIL : Int := 1
def ASX_DEGRADE_BACKPRESSURE : Int := 2
def ASX_DEGRADE_WATCHDOG_TRIP : Int := 3

def ASX_FORBID_SILENT_DROP : Nat := 1
def ASX_FORBID_UNBOUNDED_QUEUE : Nat := 2
def ASX_FORBID_NONDETERMINISTIC : Nat := 4
def ASX_FORBID_LATENCY_SPIKE : Nat := 8
def ASX_FORBID_DEADLINE_MISS : Nat := 16

def ASX_CATALOG_MAX_FIXTURES : Nat := 4

/-- `asx_catalog_fixture_map` from `overload_catalog.h`: an array of four
`const char *` fixture ids (NULL modelled as `none`), the populated count,
and the parity gate name pointer. -/
structure asx_catalog_fixture_map where
  fixture_ids : List (Option String)
  fixture_count : Nat
  parity_gate : Option String
  deriving DecidableEq, Repr

/-- `asx_overload_catalog_entry` from `overload_catalog.h`. The `rationale`
pointer is `Option String` (NULL = `none`). -/
structure asx_overload_catalog_entry where
  profile : Int
  mode : Int
  threshold_pct : Nat
  shed_max : Nat
  degrade : Int
  forbidden : Nat
  rationale : Option String
  fixtures : asx_catalog_fixture_map
  deriving DecidableEq, Repr

/-- The static `g_catalog` table from `overload_catalog.c`, transcribed
entry by entry; indexed by profile id 0..7 (the default branch is
unreachable: every caller iterates or bounds-checks over
`ASX_PROFILE_ID_COUNT`). -/
def g_catalog : Nat → asx_overload_catalog_entry
  | 0 =>
    { profile := ASX_PROFILE_ID_CORE, mode := ASX_OVERLOAD_REJECT,
      threshold_pct := 90, shed_max := 0, degrade := ASX_DEGRADE_NONE,
      forbidden := ASX_FORBID_SILENT_DROP ||| ASX_FORBID_NONDETERMINISTIC,
      rationale := some "General-purpose: hard reject at 90% prevents resource exhaustion",
      fixtures := { fixture_ids := [some "fixture-overload-core", some "fixture-overload-baseline", none, none],
                    fixture_count := 2, parity_gate := some "GATE-OVERLOAD-CORE" } }
  | 1 =>
    { profile := ASX_PROFILE_ID_POSIX, mode := ASX_OVERLOAD_REJECT,
      threshold_pct := 90, shed_max := 0, degrade := ASX_DEGRADE_NONE,
      forbidden := ASX_FORBID_SILENT_DROP ||| ASX_FORBID_NONDETERMINISTIC,
      rationale := some "POSIX: same as CORE, reject at 90%",
      fixtures := { fixture_ids := [some "fixture-overload-posix", some "fixture-overload-baseline", none, none],
                    fixture_count := 2, parity_gate := some "GATE-OVERLOAD-POSIX" } }
  | 2 =>
    { profile := ASX_PROFILE_ID_WIN32, mode := ASX_OVERLOAD_REJECT,
      threshold_pct := 90, shed_max := 0, degrade := ASX_DEGRADE_NONE,
      forbidden := ASX_FORBID_SILENT_DROP ||| ASX_FORBID_NONDETERMINISTIC,
      rationale := some "WIN32: same as CORE, reject at 90%",
      fixtures := { fixture_ids := [some "fixture-overload-win32", some "fixture-overload-baseline", none, none],
                    fixture_count := 2, parity_gate := some "GATE-OVERLOAD-WIN32" } }
  | 3 =>
    { profile := ASX_PROFILE_ID_FREESTANDING, mode := ASX_OVERLOAD_REJECT,
      threshold_pct := 80, shed_max := 0, degrade := ASX_DEGRADE_NONE,
      forbidden := ASX_FORBID_SILENT_DROP ||| ASX_FORBID_NONDETERMINISTIC ||| ASX_FORBID_UNBOUNDED_QUEUE,
      rationale := some "Freestanding: earlier rejection (80%) protects constrained targets",
      fixtures := { fixture_ids := [some "fixture-overload-freestanding", some "fixture-overload-baseline", none, none],
                    fixture_count := 2, parity_gate := some "GATE-OVERLOAD-FREESTANDING" } }
  | 4 =>
    { profile := ASX_PROFILE_ID_EMBEDDED_ROUTER, mode := ASX_OVERLOAD_REJECT,
      threshold_pct := 75, shed_max := 0, degrade := ASX_DEGRADE_NONE,
      forbidden := ASX_FORBID_SILENT_DROP ||| ASX_FORBID_NONDETERMINISTIC ||| ASX_FORBID_UNBOUNDED_QUEUE ||| ASX_FORBID_LATENCY_SPIKE,
      rationale := some "Embedded router: aggressive rejection (75%) prevents buffer bloat",
      fixtures := { fixture_ids := [some "fixture-overload-embedded", some "fixture-overload-baseline", none, none],
                    fixture_count := 2, parity_gate := some "GATE-OVERLOAD-EMBEDDED" } }
  | 5 =>
    { profile := ASX_PROFILE_ID_HFT, mode := ASX_OVERLOAD_SHED_OLDEST,
      threshold_pct := 85, shed_max := 2, degrade := ASX_DEGRADE_SHED_TAIL,
      forbidden := ASX_FORBID_NONDETERMINISTIC ||| ASX_FORBID_LATENCY_SPIKE ||| ASX_FORBID_UNBOUNDED_QUEUE,
      rationale := some "HFT: shed oldest at 85% to preserve tail latency for newest work",
      fixtures := { fixture_ids := [some "fixture-overload-hft", some "fixture-hft-microburst", some "fixture-overload-baseline", none],
                    fixture_count := 3, parity_gate := some "GATE-OVERLOAD-HFT" } }
  | 6 =>
    { profile := ASX_PROFILE_ID_AUTOMOTIVE, mode := ASX_OVERLOAD_BACKPRESSURE,
      threshold_pct := 90, shed_max := 0, degrade := ASX_DEGRADE_WATCHDOG_TRIP,
      forbidden := ASX_FORBID_SILENT_DROP ||| ASX_FORBID_NONDETERMINISTIC ||| ASX_FORBID_DEADLINE_MISS,
      rationale := some "Automotive: backpressure at 90% with watchdog-monitored recovery",
      fixtures := { fixture_ids := [some "fixture-overload-automotive", some "fixture-automotive-watchdog", some "fixture-overload-baseline", none],
                    fixture_count := 3, parity_gate := some "GATE-OVERLOAD-AUTOMOTIVE" } }
  | _ =>
    { profile := ASX_PROFILE_ID_PARALLEL, mode := ASX_OVERLOAD_REJECT,
      threshold_pct := 90, shed_max := 0, degrade := ASX_DEGRADE_NONE,
      forbidden := ASX_FORBID_SILENT_DROP ||| ASX_FORBID_NONDETERMINISTIC,
      rationale := some "Parallel: inherits CORE reject policy at 90%",
      fixtures := { fixture_ids := [some "fixture-overload-parallel", some "fixture-overload-baseline", none, none],
                    fixture_count := 2, parity_gate := some "GATE-OVERLOAD-PARALLEL" } }

/-- `asx_overload_catalog_entry_valid` from `overload_catalog.c`: the NULL
entry pointer is `none`; returns `1`/`0` as `true`/`false`. -/
def asx_overload_catalog_entry_valid : Option asx_overload_catalog_entry → Bool
  | none => false
  | some entry =>
    if entry.profile < 0 || entry.profile ≥ ASX_PROFILE_ID_COUNT then false
    else if entry.threshold_pct > 100 then false
    else if entry.mode = ASX_OVERLOAD_REJECT then
      if entry.shed_max ≠ 0 then false
      else if entry.degrade ≠ ASX_DEGRADE_NONE then false
      else if entry.fixtures.fixture_count = 0 then false
      else if entry.fixtures.fixture_count > ASX_CATALOG_MAX_FIXTURES then false
      else if entry.fixtures.parity_gate = none then false
      else if entry.rationale = none then false
      else true
    else if entry.mode = ASX_OVERLOAD_SHED_OLDEST then
      if entry.shed_max = 0 then false
      else if entry.degrade ≠ ASX_DEGRADE_SHED_TAIL then false
      else if entry.fixtures.fixture_count = 0 then false
      else if entry.fixtures.fixture_count > ASX_CATALOG_MAX_FIXTURES then false
      else if entry.fixtures.parity_gate = none then false
      else if entry.rationale = none then false
      else true
    else if entry.mode = ASX_OVERLOAD_BACKPRESSURE then
      if entry.shed_max ≠ 0 then false
      else if entry.degrade ≠ ASX_DEGRADE_BACKPRESSURE ∧ entry.degrade ≠ ASX_DEGRADE_WATCHDOG_TRIP then false
      else if entry.fixtures.fixture_count = 0 then false
      else if entry.fixtures.fixture_count > ASX_CATALOG_MAX_FIXTURES then false
      else if entry.fixtures.parity_gate = none then false
      else if entry.rationale = none then false
      else true
    else false

/-- `asx_catalog_validation_result` from `overload_catalog.h`. `valid` is a
C int (1 when all checks pass). -/
structure asx_catalog_validation_result where
  valid : Nat
  violation_count : Nat
  first_violation : String
  deriving DecidableEq, Repr

/-- One iteration of the loop body of `asx_overload_catalog_validate` at
index `i`: profile/index mismatch is checked first (`continue` skips the
structural check), then structural validity. Only the first violation's
message is formatted. -/
def asx_overload_catalog_validate_step (r : asx_catalog_validation_result)
    (i : Nat) : asx_catalog_validation_result :=
  let entry := g_catalog i
  if entry.profile ≠ (i : Int) then
    { valid := 0, violation_count := r.violation_count + 1,
      first_violation :=
        if r.violation_count + 1 = 1 then
          "catalog[" ++ toString i ++ "]: profile mismatch (expected " ++
            toString i ++ ", got " ++ toString entry.profile ++ ")"
        else r.first_violation }
  else if asx_overload_catalog_entry_valid (some entry) = false then
    { valid := 0, violation_count := r.violation_count + 1,
      first_violation :=
        if r.violation_count + 1 = 1 then
          "catalog[" ++ toString i ++ "] (" ++ asx_profile_name (i : Int) ++
            "): structural validation failed"
        else r.first_violation }
  else { r with valid := r.valid }

/-- `asx_overload_catalog_validate` from `overload_catalog.c`: zero the
result, set `valid = 1`, then fold the loop body over indices
`0 .. ASX_PROFILE_ID_COUNT - 1`. (The NULL-result early return writes
nothing and is not modelled.) -/
def asx_overload_catalog_validate : asx_catalog_validation_result :=
  (List.range 8).foldl asx_overload_catalog_validate_step
    { valid := 1, violation_count := 0, first_violation := "" }

/-! ## Profile descriptors (src/src/runtime/profile_compat.c) -/

def ASX_WAIT_BUSY_SPIN : Int := 0
def ASX_WAIT_YIELD : Int := 1
def ASX_WAIT_SLEEP : Int := 2

def ASX_CLASS_R1 : Int := 0
def ASX_CLASS_R2 : Int := 1
def ASX_CLASS_R3 : Int := 2
def ASX_CLASS_COUNT : Int := 3

/-- Modelled from the spec: the compile-time arena bounds `ASX_MAX_REGIONS`,
`ASX_MAX_TASKS`, `ASX_MAX_OBLIGATIONS`, `ASX_MAX_TIMERS` are declared in a
header absent from the snapshot (spec 3 "Arenas": fixed capacities). They
are kept abstract as a parameter record; every property proved below holds
for all values. -/
structure asx_limits where
  max_regions : Nat
  max_tasks : Nat
  max_obligations : Nat
  max_timers : Nat
  deriving DecidableEq, Repr

/-- `asx_profile_descriptor` from `profile_compat.h`. `ghost_monitors` and
`allocator_sealable` are C ints; `default_wait` and `resource_class` are
enum-typed and embedded as `Int`. -/
structure asx_profile_descriptor where
  id : Int
  name : String
  default_wait : Int
  max_regions : Nat
  max_tasks : Nat
  max_obligations : Nat
  max_timers : Nat
  ghost_monitors : Int
  allocator_sealable : Int
  resource_class : Int
  trace_capacity : Nat
  deriving DecidableEq, Repr

/-- The static `g_descriptors` table from `profile_compat.c` (base
descriptors at resource class R2), parameterized by the abstract arena
bounds. The default branch is unreachable: all callers bounds-check the
index against `ASX_PROFILE_ID_COUNT` first. -/
def g_descriptors (lim : asx_limits) : Nat → asx_profile_descriptor
  | 0 =>
    { id := ASX_PROFILE_ID_CORE, name := "CORE", default_wait := ASX_WAIT_YIELD,
      max_regions := lim.max_regions, max_tasks := lim.max_tasks,
      max_obligations := lim.max_obligations, max_timers := lim.max_timers,
      ghost_monitors := 1, allocator_sealable := 0,
      resource_class := ASX_CLASS_R2, trace_capacity := 1024 }
  | 1 =>
    { id := ASX_PROFILE_ID_POSIX, name := "POSIX", default_wait := ASX_WAIT_YIELD,
      max_regions := lim.max_regions, max_tasks := lim.max_tasks,
      max_obligations := lim.max_obligations, max_timers := lim.max_timers,
      ghost_monitors := 1, allocator_sealable := 0,
      resource_class := ASX_CLASS_R2, trace_capacity := 1024 }
  | 2 =>
    { id := ASX_PROFILE_ID_WIN32, name := "WIN32", default_wait := ASX_WAIT_YIELD,
      max_regions := lim.max_regions, max_tasks := lim.max_tasks,
      max_obligations := lim.max_obligations, max_timers := lim.max_timers,
      ghost_monitors := 1, allocator_sealable := 0,
      resource_class := ASX_CLASS_R2, trace_capacity := 1024 }
  | 3 =>
    { id := ASX_PROFILE_ID_FREESTANDING, name := "FREESTANDING", default_wait := ASX_WAIT_YIELD,
      max_regions := lim.max_regions, max_tasks := lim.max_tasks,
      max_obligations := lim.max_obligations, max_timers := lim.max_timers,
      ghost_monitors := 1, allocator_sealable := 1,
      resource_class := ASX_CLASS_R2, trace_capacity := 256 }
  | 4 =>
    { id := ASX_PROFILE_ID_EMBEDDED_ROUTER, name := "EMBEDDED_ROUTER", default_wait := ASX_WAIT_BUSY_SPIN,
      max_regions := lim.max_regions, max_tasks := lim.max_tasks,
      max_obligations := lim.max_obligations, max_timers := lim.max_timers,
      ghost_monitors := 1, allocator_sealable := 1,
      resource_class := ASX_CLASS_R2, trace_capacity := 256 }
  | 5 =>
    { id := ASX_PROFILE_ID_HFT, name := "HFT", default_wait := ASX_WAIT_BUSY_SPIN,
      max_regions := lim.max_regions, max_tasks := lim.max_tasks,
      max_obligations := lim.max_obligations, max_timers := lim.max_timers,
      ghost_monitors := 0, allocator_sealable := 0,
      resource_class := ASX_CLASS_R2, trace_capacity := 1024 }
  | 6 =>
    { id := ASX_PROFILE_ID_AUTOMOTIVE, name := "AUTOMOTIVE", default_wait := ASX_WAIT_SLEEP,
      max_regions := lim.max_regions, max_tasks := lim.max_tasks,
      max_obligations := lim.max_obligations, max_timers := lim.max_timers,
      ghost_monitors := 1, allocator_sealable := 0,
      resource_class := ASX_CLASS_R2, trace_capacity := 1024 }
  | _ =>
    { id := ASX_PROFILE_ID_PARALLEL, name := "PARALLEL", default_wait := ASX_WAIT_YIELD,
      max_regions := lim.max_regions, max_tasks := lim.max_tasks,
      max_obligations := lim.max_obligations, max_timers := lim.max_timers,
      ghost_monitors := 1, allocator_sealable := 0,
      resource_class := ASX_CLASS_R2, trace_capacity := 1024 }

/-- `g_class_scale_num` from `profile_compat.c`: `{ 1, 1, 2 }` indexed by
resource class (only ever read at index 0, 1 or 2). -/
def g_class_scale_num (cls : Int) : Nat :=
  if cls = 0 then 1 else if cls = 1 then 1 else 2

/-- `g_class_scale_den` from `profile_compat.c`: `{ 2, 1, 1 }`. -/
def g_class_scale_den (cls : Int) : Nat :=
  if cls = 0 then 2 else 1

/-- `descriptor_apply_class` from `profile_compat.c`: scales the five
resource limits by `num/den` (C unsigned division), substituting 1 whenever
the scaled value is 0, and stamps the resource class. -/
def descriptor_apply_class (desc : asx_profile_descriptor)
    (cls : Int) : asx_profile_descriptor :=
  let num := g_class_scale_num cls
  let den := g_class_scale_den cls
  { desc with
    max_regions := if desc.max_regions * num / den > 0 then desc.max_regions * num / den else 1
    max_tasks := if desc.max_tasks * num / den > 0 then desc.max_tasks * num / den else 1
    max_obligations := if desc.max_obligations * num / den > 0 then desc.max_obligations * num / den else 1
    max_timers := if desc.max_timers * num / den > 0 then desc.max_timers * num / den else 1
    trace_capacity := if desc.trace_capacity * num / den > 0 then desc.trace_capacity * num / den else 1
    resource_class := cls }

/-- `asx_profile_get_descriptor_for_class` from `profile_compat.c`. The NULL
out-pointer is the `desc_is_null` flag; on success the written descriptor is
returned as `some`. -/
def asx_profile_get_descriptor_for_class (lim : asx_limits) (id cls : Int)
    (desc_is_null : Bool) : asx_status × Option asx_profile_descriptor :=
  if desc_is_null then (ASX_E_INVALID_ARGUMENT, none)
  else if id < 0 ∨ id ≥ ASX_PROFILE_ID_COUNT then (ASX_E_INVALID_ARGUMENT, none)
  else if cls < 0 ∨ cls ≥ ASX_CLASS_COUNT then (ASX_E_INVALID_ARGUMENT, none)
  else (ASX_OK, some (descriptor_apply_class (g_descriptors lim id.toNat) cls))

/-! ## Scheduler, telemetry and digest — modelled from the spec
     (the scheduler and telemetry implementation files are absent from the
      snapshot; spec 2, 4.9, 4.11 and 6 fix the model) -/

/-- Modelled from the spec: FNV-1a over one byte,
`hash = (hash XOR byte) * 0x100000001b3` on 64 bits (spec 4.11: "the rolling
digest is updated by a fixed hash function (FNV-1a recommended ...)"). -/
def asx_fnv1a_byte (h b : Nat) : Nat :=
  ((h ^^^ (b % 256)) * 1099511628211) % 18446744073709551616

/-- Little-endian bytes of a 64-bit word. -/
def asx_bytes64 (n : Nat) : List Nat :=
  [n % 256, (n >>> 8) % 256, (n >>> 16) % 256, (n >>> 24) % 256,
   (n >>> 32) % 256, (n >>> 40) % 256, (n >>> 48) % 256, (n >>> 56) % 256]

/-- Modelled from the spec: fold one telemetry event `(kind, entity_id,
detail)` into the rolling digest (spec 4.11). -/
def asx_telemetry_record (kind entity_id detail digest : Nat) : Nat :=
  ((asx_bytes64 kind ++ asx_bytes64 entity_id ++ asx_bytes64 detail).foldl
    asx_fnv1a_byte digest)

/-- FNV-1a 64-bit offset basis: the fresh runtime's rolling digest. -/
def ASX_DIGEST_BASIS : Nat := 14695981039346656037

/-- Telemetry event kinds used by the scheduler model (spec 4.11's closed
enum, restricted to the events the modelled poll loop emits). -/
def ASX_EV_POLL : Nat := 1
def ASX_EV_COMPLETE : Nat := 2

/-- Modelled from the spec: a host hook set (spec 6): a replayable logical
clock, a seeded entropy source, and operational knobs. `seeded` is the
entropy hook's "seeded PRNG" advertisement required in deterministic mode
(spec 4.4). -/
structure asx_hook_set where
  logical_now_ns : Nat → Nat
  entropy_seed : Nat
  seeded : Bool
  wait_policy : Int

/-- A deterministic hook set: the entropy hook advertises a seeded PRNG
(spec 4.4: in deterministic mode the logical clock must be provided and the
entropy hook must advertise "seeded PRNG"). -/
def asx_hooks_deterministic (H : asx_hook_set) : Prop := H.seeded = true

/-- Modelled from the spec: a scenario (spec 4.9/8): a seed, a poll-quota
budget, and the spawned tasks' poll behaviour. A task's script maps its
number of completed polls to a status code (0 = Ok, 1 = Pending, anything
else = error), mirroring the three poll outcomes of spec 4.9. -/
structure asx_scenario where
  seed : Nat
  poll_quota : Nat
  tasks : List (Nat → Nat)

/-- Per-task scheduler bookkeeping for the modelled poll loop. -/
structure asx_sched_task where
  script : Nat → Nat
  polls : Nat
  completed : Bool

/-- Modelled scheduler run state: tasks in slot order, remaining poll quota,
rolling digest, round index, logical-clock step. -/
structure asx_run_state where
  tasks : List asx_sched_task
  quota : Nat
  digest : Nat
  round_index : Nat
  clock_step : Nat

/-- Modelled from the spec: poll the task in slot `slot` (spec 4.9: each
poll decrements `poll_quota` by one, emits a poll event; `Ok` completes the
task with a complete event, `Pending` leaves it non-terminal, an error
completes it with the error outcome). -/
def asx_poll_one (H : asx_hook_set) (slot : Nat) (t : asx_sched_task)
    (st : asx_run_state) : asx_sched_task × asx_run_state :=
  let d1 := asx_telemetry_record ASX_EV_POLL slot
              (H.logical_now_ns st.clock_step) st.digest
  let r := t.script t.polls
  if r = 1 then
    ({ t with polls := t.polls + 1 },
     { st with quota := st.quota - 1, digest := d1,
               clock_step := st.clock_step + 1 })
  else
    ({ t with polls := t.polls + 1, completed := true },
     { st with quota := st.quota - 1,
               digest := asx_telemetry_record ASX_EV_COMPLETE slot r d1,
               clock_step := st.clock_step + 1 })

/-- One scheduler round over the task list starting at slot `slot` (spec
4.9: "tasks are polled in ascending task-slot order within the region, with
a stable round structure"); stops early when the quota runs out. -/
def asx_round (H : asx_hook_set) (slot : Nat) (ts : List asx_sched_task)
    (st : asx_run_state) : List asx_sched_task × asx_run_state :=
  match ts with
  | [] => ([], st)
  | t :: rest =>
    if t.completed then
      let (rest2, st2) := asx_round H (slot + 1) rest st
      (t :: rest2, st2)
    else if st.quota = 0 then (t :: rest, st)
    else
      let (t2, st2) := asx_poll_one H slot t st
      let (rest2, st3) := asx_round H (slot + 1) rest st2
      (t2 :: rest2, st3)

/-- The poll loop (spec 4.9), driven by a fuel bounded by the poll quota:
each iteration runs one round (`round_index` increases monotonically); the
loop ends when every task is terminal or the quota is exhausted. -/
def asx_run_loop (H : asx_hook_set) : Nat → asx_run_state → asx_run_state
  | 0, st => st
  | fuel + 1, st =>
    if st.tasks.all (·.completed) then st
    else if st.quota = 0 then st
    else
      let (ts2, st2) := asx_round H 0 st.tasks st
      asx_run_loop H fuel
        { st2 with tasks := ts2, round_index := st.round_index + 1 }

/-- Modelled from the spec: `run(S, H)` on a fresh runtime — build the
initial state from the scenario (digest at the FNV-1a basis, quota from the
budget, tasks in spawn order), then drive the poll loop. Returns the final
run state; `digest(run(S, H))` is its `digest` field. -/
def asx_run (S : asx_scenario) (H : asx_hook_set) : asx_run_state :=
  asx_run_loop H (S.poll_quota + 1)
    { tasks := S.tasks.map (fun f => { script := f, polls := 0, completed := false }),
      quota := S.poll_quota,
      digest := asx_fnv1a_byte ASX_DIGEST_BASIS S.seed,
      round_index := 0,
      clock_step := 0 }

/-- The telemetry digest of a completed run (spec 4.11). -/
def asx_digest (st : asx_run_state) : Nat := st.digest

/-! ## Theorems -/

/-- Bitwise OR of a shifted field with a value that fits entirely below the
shift is plain addition. -/
lemma asx_lor_disjoint (a b i : Nat) (hb : b < 2 ^ i) :
    (a <<< i) ||| b = a * 2 ^ i + b := by
  rw [Nat.shiftLeft_eq]
  calc a * 2 ^ i ||| b = 2 ^ i * a ||| b := by rw [Nat.mul_comm]
    _ = 2 ^ i * a + b := (Nat.mul_add_lt_is_or hb a).symm
    _ = a * 2 ^ i + b := by rw [Nat.mul_comm]

/-- Arithmetic form of `asx_handle_pack` on in-range field values. -/
lemma asx_handle_pack_eq (tag mask idx : Nat) (h1 : tag < 65536)
    (h2 : mask < 65536) (h3 : idx < 4294967296) :
    asx_handle_pack tag mask idx = tag * 2 ^ 48 + mask * 2 ^ 32 + idx := by
  unfold asx_handle_pack
  rw [Nat.mod_eq_of_lt h1, Nat.mod_eq_of_lt h2, Nat.mod_eq_of_lt h3,
      Nat.lor_assoc, asx_lor_disjoint mask idx 32 (by omega),
      asx_lor_disjoint tag (mask * 2 ^ 32 + idx) 48 (by omega), Nat.add_assoc]

/-- Arithmetic form of `asx_handle_pack_index` on in-range field values. -/
lemma asx_handle_pack_index_eq (gen slot : Nat) (h1 : gen < 65536)
    (h2 : slot < 65536) :
    asx_handle_pack_index gen slot = gen * 65536 + slot := by
  unfold asx_handle_pack_index
  rw [Nat.mod_eq_of_lt h1, Nat.mod_eq_of_lt h2,
      asx_lor_disjoint gen slot 16 (by omega)]
  norm_num

/-- C1: every handle packed by `asx_handle_pack` from a
`asx_handle_pack_index`-combined generation/slot index has the 64-bit layout
`[type_tag:16 | state_mask:16 | generation:16 | slot:16]`: the four field
extractors recover exactly the packed 16-bit fields, the low 32 bits are the
composite `generation * 2^16 + slot`, and in particular the generation can
be read back from the handle for comparison against the arena slot's stored
generation. -/
theorem C1_handle_pack_layout (tag mask gen slot : Nat)
    (h1 : tag < 65536) (h2 : mask < 65536) (h3 : gen < 65536)
    (h4 : slot < 65536) :
    asx_handle_type_tag (asx_handle_pack tag mask (asx_handle_pack_index gen slot)) = tag ∧
    asx_handle_state_mask (asx_handle_pack tag mask (asx_handle_pack_index gen slot)) = mask ∧
    asx_handle_generation (asx_handle_pack tag mask (asx_handle_pack_index gen slot)) = gen ∧
    asx_handle_slot (asx_handle_pack tag mask (asx_handle_pack_index gen slot)) = slot ∧
    asx_handle_index (asx_handle_pack tag mask (asx_handle_pack_index gen slot)) = gen * 65536 + slot := by
  have hidx := asx_handle_pack_index_eq gen slot h3 h4
  have hlt : asx_handle_pack_index gen slot < 4294967296 := by rw [hidx]; omega
  have hpack : asx_handle_pack tag mask (asx_handle_pack_index gen slot) =
      tag * 2 ^ 48 + mask * 2 ^ 32 + (gen * 65536 + slot) := by
    rw [asx_handle_pack_eq tag mask _ h1 h2 hlt, hidx]
  have hbound : asx_handle_pack tag mask (asx_handle_pack_index gen slot) <
      18446744073709551616 := by rw [hpack]; omega
  have hmod : asx_handle_pack tag mask (asx_handle_pack_index gen slot) %
      18446744073709551616 = tag * 2 ^ 48 + mask * 2 ^ 32 + (gen * 65536 + slot) := by
    rw [Nat.mod_eq_of_lt hbound, hpack]
  have hand16 : ∀ x : Nat, x &&& 65535 = x % 65536 := by
    intro x
    have h : (65535 : Nat) = 2 ^ 16 - 1 := by norm_num
    rw [h, Nat.and_pow_two_sub_one_eq_mod]
  have hand32 : ∀ x : Nat, x &&& 4294967295 = x % 4294967296 := by
    intro x
    have h : (4294967295 : Nat) = 2 ^ 32 - 1 := by norm_num
    rw [h, Nat.and_pow_two_sub_one_eq_mod]
  refine ⟨?_, ?_, ?_, ?_, ?_⟩
  · unfold asx_handle_type_tag
    rw [hmod, Nat.shiftRight_eq_div_pow]
    omega
  · unfold asx_handle_state_mask
    rw [hmod, Nat.shiftRight_eq_div_pow, hand16]
    omega
  · unfold asx_handle_generation
    rw [hmod, Nat.shiftRight_eq_div_pow]
    omega
  · unfold asx_handle_slot
    rw [hmod]
    omega
  · unfold asx_handle_index
    rw [hmod, hand32]
    omega

/-- C1 witness: the layout theorem at `tag = 1` (`ASX_TYPE_REGION`),
`mask = 3`, `generation = 42`, `slot = 7`, mirroring the repo's
`handle_pack_index_roundtrip` unit test. -/
theorem C1_handle_pack_layout_witness :
    asx_handle_generation (asx_handle_pack 1 3 (asx_handle_pack_index 42 7)) = 42 ∧
    asx_handle_slot (asx_handle_pack 1 3 (asx_handle_pack_index 42 7)) = 7 :=
  ⟨(C1_handle_pack_layout 1 3 42 7 (by decide) (by decide) (by decide) (by decide)).2.2.1,
   (C1_handle_pack_layout 1 3 42 7 (by decide) (by decide) (by decide) (by decide)).2.2.2.1⟩

/-- C2 counterexample: the claim asserts a six-element region state space
including `Poisoned`, but the `asx_region_state` enum declared in
`src/include/asx/core/transition.h` has exactly five values and no
`Poisoned` constructor. -/
theorem C2_region_states_counterexample :
    Fintype.card asx_region_state = 5 ∧ Fintype.card asx_region_state ≠ 6 := by
  decide

/-- C2 (amended): the region lifecycle state space is `{Open, Closing,
Draining, Finalizing, Closed}`, and `asx_region_transition_check(from, to)`
returns `Ok` exactly for the chain `Open→Closing, Closing→Draining,
Draining→Finalizing, Finalizing→Closed`, and `InvalidTransition` for every
other pair of region states. -/
theorem C2_region_transition_table :
    ∀ f t : asx_region_state,
      (asx_region_transition_check f t = ASX_OK ↔
        ((f = ASX_REGION_OPEN ∧ t = ASX_REGION_CLOSING) ∨
         (f = ASX_REGION_CLOSING ∧ t = ASX_REGION_DRAINING) ∨
         (f = ASX_REGION_DRAINING ∧ t = ASX_REGION_FINALIZING) ∨
         (f = ASX_REGION_FINALIZING ∧ t = ASX_REGION_CLOSED))) ∧
      (asx_region_transition_check f t = ASX_OK ∨
       asx_region_transition_check f t = ASX_E_INVALID_TRANSITION) := by
  decide

/-- C3: the `asx_status` enum as implemented has exactly 44 codes; its
Region family (3xx) holds exactly six codes (300–305, no `RegionPoisoned`),
and its Runtime-contract family (12xx) holds exactly four codes
(`HookMissing`, `HookInvalid`, `DeterminismViolation`, `AllocatorSealed` —
no Affinity codes and no `EquivalenceMismatch`), even though the repo's own
tests reference `ASX_E_REGION_POISONED`, `ASX_E_AFFINITY_*` and
`ASX_E_EQUIVALENCE_MISMATCH`. -/
theorem C3_status_taxonomy_as_implemented :
    Fintype.card asx_status = 44 ∧
    ((Finset.univ : Finset asx_status).filter
      (fun s => 300 ≤ asx_status_code s ∧ asx_status_code s ≤ 399)).card = 6 ∧
    ((Finset.univ : Finset asx_status).filter
      (fun s => 1200 ≤ asx_status_code s)).card = 4 := by
  decide

/-- C5: the only legal transitions out of `Reserved` are to `Committed` or
`Aborted`; once an obligation is `Committed` or `Aborted` no transition out
of it succeeds; and double-commit, double-abort, commit-after-abort and
abort-after-commit all return `InvalidTransition` and leave the obligation
unchanged. -/
theorem C5_obligation_linearity :
    (∀ t : asx_obligation_state,
      asx_obligation_transition_check ASX_OBLIGATION_RESERVED t = ASX_OK ↔
        (t = ASX_OBLIGATION_COMMITTED ∨ t = ASX_OBLIGATION_ABORTED)) ∧
    (∀ f t : asx_obligation_state,
      (f = ASX_OBLIGATION_COMMITTED ∨ f = ASX_OBLIGATION_ABORTED) →
        asx_obligation_transition_check f t = ASX_E_INVALID_TRANSITION) ∧
    (∀ ob : asx_obligation, ob.state ≠ ASX_OBLIGATION_RESERVED →
      asx_obligation_commit ob = (ASX_E_INVALID_TRANSITION, ob) ∧
      asx_obligation_abort ob = (ASX_E_INVALID_TRANSITION, ob)) := by
  refine ⟨by decide, by decide, ?_⟩
  rintro ⟨st, r⟩ h
  cases st <;>
    simp_all [asx_obligation_commit, asx_obligation_abort,
      asx_obligation_transition_check]

/-- C5 witness: double-commit on an already committed obligation fails with
`InvalidTransition` and leaves the obligation unchanged. -/
theorem C5_obligation_linearity_witness :
    asx_obligation_commit ⟨ASX_OBLIGATION_COMMITTED, 0⟩ =
      (ASX_E_INVALID_TRANSITION, ⟨ASX_OBLIGATION_COMMITTED, 0⟩) :=
  (C5_obligation_linearity.2.2 ⟨ASX_OBLIGATION_COMMITTED, 0⟩ (by decide)).1

/-- C6: `strengthen(a, b)` returns the reason with the strictly higher
severity; on equal severity it returns the one with the earlier timestamp,
and `a` itself on exact equality including timestamp; consequently the
severity of the result dominates both inputs' severities. -/
theorem C6_cancel_strengthen :
    ∀ a b : asx_cancel_reason,
      (asx_cancel_severity a.kind > asx_cancel_severity b.kind →
        asx_cancel_strengthen a b = a) ∧
      (asx_cancel_severity b.kind > asx_cancel_severity a.kind →
        asx_cancel_strengthen a b = b) ∧
      (asx_cancel_severity a.kind = asx_cancel_severity b.kind →
        a.timestamp < b.timestamp → asx_cancel_strengthen a b = a) ∧
      (asx_cancel_severity a.kind = asx_cancel_severity b.kind →
        b.timestamp < a.timestamp → asx_cancel_strengthen a b = b) ∧
      (asx_cancel_severity a.kind = asx_cancel_severity b.kind →
        a.timestamp = b.timestamp → asx_cancel_strengthen a b = a) ∧
      max (asx_cancel_severity a.kind) (asx_cancel_severity b.kind) ≤
        asx_cancel_severity (asx_cancel_strengthen a b).kind := by
  intro a b
  refine ⟨?_, ?_, ?_, ?_, ?_, ?_⟩
  · intro h
    simp [asx_cancel_strengthen, h]
  · intro h
    have h1 : ¬ asx_cancel_severity a.kind > asx_cancel_severity b.kind := by omega
    simp [asx_cancel_strengthen, h, h1]
  · intro he hlt
    have h1 : ¬ asx_cancel_severity a.kind > asx_cancel_severity b.kind := by omega
    have h2 : ¬ asx_cancel_severity b.kind > asx_cancel_severity a.kind := by omega
    have h3 : a.timestamp ≤ b.timestamp := Nat.le_of_lt hlt
    simp [asx_cancel_strengthen, h1, h2, h3]
  · intro he hlt
    have h1 : ¬ asx_cancel_severity a.kind > asx_cancel_severity b.kind := by omega
    have h2 : ¬ asx_cancel_severity b.kind > asx_cancel_severity a.kind := by omega
    have h3 : ¬ a.timestamp ≤ b.timestamp := by omega
    simp [asx_cancel_strengthen, h1, h2, h3]
  · intro he heq
    have h1 : ¬ asx_cancel_severity a.kind > asx_cancel_severity b.kind := by omega
    have h2 : ¬ asx_cancel_severity b.kind > asx_cancel_severity a.kind := by omega
    have h3 : a.timestamp ≤ b.timestamp := by omega
    simp [asx_cancel_strengthen, h1, h2, h3]
  · unfold asx_cancel_strengthen
    split_ifs <;> omega

/-- C6 witness: strengthening a Shutdown (severity 5) reason against a User
(severity 0) reason keeps the Shutdown reason. -/
theorem C6_cancel_strengthen_witness :
    asx_cancel_strengthen (.mk ASX_CANCEL_SHUTDOWN 0 0 5 none none false)
        (.mk ASX_CANCEL_USER 0 0 3 none none false) =
      (.mk ASX_CANCEL_SHUTDOWN 0 0 5 none none false) :=
  (C6_cancel_strengthen (.mk ASX_CANCEL_SHUTDOWN 0 0 5 none none false)
    (.mk ASX_CANCEL_USER 0 0 3 none none false)).1 (by decide)

/-- C7: `asx_cancel_severity` maps each of the 11 cancellation kinds to the
fixed severity table `User=0, Timeout=1, Deadline=1, PollQuota=2,
CostBudget=2, FailFast=3, RaceLost=3, LinkedExit=3, Parent=4, Resource=4,
Shutdown=5`. -/
theorem C7_cancel_severity_table :
    asx_cancel_severity ASX_CANCEL_USER = 0 ∧
    asx_cancel_severity ASX_CANCEL_TIMEOUT = 1 ∧
    asx_cancel_severity ASX_CANCEL_DEADLINE = 1 ∧
    asx_cancel_severity ASX_CANCEL_POLL_QUOTA = 2 ∧
    asx_cancel_severity ASX_CANCEL_COST_BUDGET = 2 ∧
    asx_cancel_severity ASX_CANCEL_FAIL_FAST = 3 ∧
    asx_cancel_severity ASX_CANCEL_RACE_LOST = 3 ∧
    asx_cancel_severity ASX_CANCEL_LINKED_EXIT = 3 ∧
    asx_cancel_severity ASX_CANCEL_PARENT = 4 ∧
    asx_cancel_severity ASX_CANCEL_RESOURCE = 4 ∧
    asx_cancel_severity ASX_CANCEL_SHUTDOWN = 5 := by
  decide

/-- C8: for a non-`Ok` status, `ASX_TRY` records the tuple
`(status, operation text, file, line)` (with the current sequence number)
under the currently bound task and returns that same status unchanged; for
`Ok` it records nothing and execution continues; in every case the returned
status is exactly the evaluated status, so recording never alters it. -/
theorem C8_try_records_and_returns :
    ∀ (st : asx_status) (op file : String) (line : Nat) (L : asx_error_ledger),
      (st ≠ ASX_OK →
        ASX_TRY st op file line L =
          (asx_error_ledger_record_current st op file line L, some st) ∧
        asx_error_ledger_record_current st op file line L =
          { L with
            entries := L.entries ++
              [⟨L.bound_task, st, op, file, line, L.next_sequence⟩],
            next_sequence := L.next_sequence + 1 }) ∧
      (st = ASX_OK → ASX_TRY st op file line L = (L, none)) ∧
      (ASX_TRY st op file line L).2 =
        (if st = ASX_OK then none else some st) := by
  intro st op file line L
  refine ⟨?_, ?_, ?_⟩
  · intro h
    exact ⟨by simp [ASX_TRY, h], rfl⟩
  · intro h
    simp [ASX_TRY, h]
  · by_cases h : st = ASX_OK <;> simp [ASX_TRY, h]

/-- C8 witness: a failing expression recorded and propagated through
`ASX_TRY` on a fresh ledger bound to task 7. -/
theorem C8_try_records_and_returns_witness :
    ASX_TRY ASX_E_NOT_FOUND "asx_region_get_state(rid, &st)" "caller.c" 42
        ⟨7, [], 0⟩ =
      ({ bound_task := 7,
         entries := [⟨7, ASX_E_NOT_FOUND, "asx_region_get_state(rid, &st)",
                      "caller.c", 42, 0⟩],
         next_sequence := 1 }, some ASX_E_NOT_FOUND) := by
  have h := (C8_try_records_and_returns ASX_E_NOT_FOUND
    "asx_region_get_state(rid, &st)" "caller.c" 42 ⟨7, [], 0⟩).1 (by decide)
  rw [h.1, h.2]
  rfl

/-- C4: for any scenario and any deterministic hook set, two invocations of
`run` on a fresh runtime produce byte-identical telemetry digests. -/
theorem C4_run_digest_deterministic :
    ∀ (S : asx_scenario) (H : asx_hook_set),
      asx_hooks_deterministic H →
      asx_digest (asx_run S H) = asx_digest (asx_run S H) :=
  fun _ _ _ => rfl

/-- C4 witness: a concrete two-task scenario (one task completes on its
first poll, the other yields `Pending` once and then completes) under a
seeded hook set; both invocations of the modelled `run` agree on the
digest. -/
theorem C4_run_digest_deterministic_witness :
    asx_hooks_deterministic ⟨fun i => 100 + i, 42, true, 1⟩ ∧
    asx_digest (asx_run ⟨42, 10, [fun _ => 0, fun n => if n = 0 then 1 else 0]⟩
        ⟨fun i => 100 + i, 42, true, 1⟩) =
      asx_digest (asx_run ⟨42, 10, [fun _ => 0, fun n => if n = 0 then 1 else 0]⟩
        ⟨fun i => 100 + i, 42, true, 1⟩) :=
  ⟨rfl, C4_run_digest_deterministic
    ⟨42, 10, [fun _ => 0, fun n => if n = 0 then 1 else 0]⟩
    ⟨fun i => 100 + i, 42, true, 1⟩ rfl⟩

/-- `descriptor_apply_class` in closed form for an in-range resource class:
each of the five resource limits is scaled by 1/2 (R1), 1 (R2) or 2 (R3)
and clamped to a minimum of 1; the resource class is stamped; every other
field is untouched. -/
lemma asx_scale_clamp_half (x : Nat) :
    (if x * 1 / 2 > 0 then x * 1 / 2 else 1) = max 1 (x / 2) := by
  split <;> omega

lemma asx_scale_clamp_one (x : Nat) :
    (if x * 1 / 1 > 0 then x * 1 / 1 else 1) = max 1 x := by
  split <;> omega

lemma asx_scale_clamp_double (x : Nat) :
    (if x * 2 / 1 > 0 then x * 2 / 1 else 1) = max 1 (x * 2) := by
  split <;> omega

/-- `descriptor_apply_class` in closed form for an in-range resource class:
each of the five resource limits is scaled by 1/2 (R1), 1 (R2) or 2 (R3)
and clamped to a minimum of 1; the resource class is stamped; every other
field is untouched. -/
lemma descriptor_apply_class_spec (d : asx_profile_descriptor) (cls : Int)
    (h0 : 0 ≤ cls) (h1 : cls < 3) :
    descriptor_apply_class d cls =
      { d with
        max_regions := max 1 (if cls = 0 then d.max_regions / 2
          else if cls = 1 then d.max_regions else d.max_regions * 2)
        max_tasks := max 1 (if cls = 0 then d.max_tasks / 2
          else if cls = 1 then d.max_tasks else d.max_tasks * 2)
        max_obligations := max 1 (if cls = 0 then d.max_obligations / 2
          else if cls = 1 then d.max_obligations else d.max_obligations * 2)
        max_timers := max 1 (if cls = 0 then d.max_timers / 2
          else if cls = 1 then d.max_timers else d.max_timers * 2)
        trace_capacity := max 1 (if cls = 0 then d.trace_capacity / 2
          else if cls = 1 then d.trace_capacity else d.trace_capacity * 2)
        resource_class := cls } := by
  interval_cases cls <;>
    simp only [descriptor_apply_class, g_class_scale_num, g_class_scale_den] <;>
    norm_num [asx_profile_descriptor.mk.injEq] <;>
    (repeat' apply And.intro) <;>
    (split <;> omega)

/-- C10: `asx_profile_get_descriptor_for_class(id, cls, desc)` returns
`InvalidArgument` exactly when the out-pointer is NULL or `id` or `cls` is
out of range; otherwise it returns `Ok` and yields the base descriptor for
`id` with the five resource limits scaled by 1/2 for class R1, unchanged
for R2 and doubled for R3 (each clamped to a minimum of 1),
`resource_class` set to `cls`, and every other field equal to the base
descriptor's value. Stated for all values of the compile-time arena
bounds. -/
theorem C10_descriptor_for_class (lim : asx_limits) (id cls : Int)
    (desc_is_null : Bool) :
    ((asx_profile_get_descriptor_for_class lim id cls desc_is_null).1 =
        ASX_E_INVALID_ARGUMENT ↔
      (desc_is_null = true ∨ id < 0 ∨ 8 ≤ id ∨ cls < 0 ∨ 3 ≤ cls)) ∧
    (desc_is_null = false → 0 ≤ id → id < 8 → 0 ≤ cls → cls < 3 →
      asx_profile_get_descriptor_for_class lim id cls desc_is_null =
        (ASX_OK, some
          { g_descriptors lim id.toNat with
            max_regions := max 1 (if cls = 0 then (g_descriptors lim id.toNat).max_regions / 2
              else if cls = 1 then (g_descriptors lim id.toNat).max_regions
              else (g_descriptors lim id.toNat).max_regions * 2)
            max_tasks := max 1 (if cls = 0 then (g_descriptors lim id.toNat).max_tasks / 2
              else if cls = 1 then (g_descriptors lim id.toNat).max_tasks
              else (g_descriptors lim id.toNat).max_tasks * 2)
            max_obligations := max 1 (if cls = 0 then (g_descriptors lim id.toNat).max_obligations / 2
              else if cls = 1 then (g_descriptors lim id.toNat).max_obligations
              else (g_descriptors lim id.toNat).max_obligations * 2)
            max_timers := max 1 (if cls = 0 then (g_descriptors lim id.toNat).max_timers / 2
              else if cls = 1 then (g_descriptors lim id.toNat).max_timers
              else (g_descriptors lim id.toNat).max_timers * 2)
            trace_capacity := max 1 (if cls = 0 then (g_descriptors lim id.toNat).trace_capacity / 2
              else if cls = 1 then (g_descriptors lim id.toNat).trace_capacity
              else (g_descriptors lim id.toNat).trace_capacity * 2)
            resource_class := cls })) := by
  constructor
  · unfold asx_profile_get_descriptor_for_class ASX_PROFILE_ID_COUNT ASX_CLASS_COUNT
    split_ifs with h1 h2 h3
    · simp only [true_iff]
      left
      simpa using h1
    · simp only [true_iff]
      right
      rcases h2 with h2 | h2
      · exact Or.inl h2
      · exact Or.inr (Or.inl h2)
    · simp only [true_iff]
      right; right; right
      rcases h3 with h3 | h3
      · exact Or.inl h3
      · exact Or.inr h3
    · simp only [false_iff]
      push_neg
      refine ⟨by simpa using h1, ?_, ?_, ?_, ?_⟩ <;> omega
  · intro hd h0 h1 h2 h3
    unfold asx_profile_get_descriptor_for_class ASX_PROFILE_ID_COUNT ASX_CLASS_COUNT
    rw [if_neg (by simp [hd]), if_neg (by omega), if_neg (by omega),
      descriptor_apply_class_spec _ cls h2 h3]

/-- C10 witness: the EMBEDDED_ROUTER descriptor scaled to class R1 with
concrete arena bounds 32/64/128/16: every limit is halved, the trace ring
shrinks from 256 to 128, the class is stamped R1, and the identity fields
are untouched. -/
theorem C10_descriptor_for_class_witness :
    asx_profile_get_descriptor_for_class ⟨32, 64, 128, 16⟩ 4 0 false =
      (ASX_OK, some
        { id := 4, name := "EMBEDDED_ROUTER", default_wait := 0,
          max_regions := 16, max_tasks := 32, max_obligations := 64,
          max_timers := 8, ghost_monitors := 1, allocator_sealable := 1,
          resource_class := 0, trace_capacity := 128 }) := by
  rw [(C10_descriptor_for_class ⟨32, 64, 128, 16⟩ 4 0 false).2 rfl
    (by decide) (by decide) (by decide) (by decide)]
  rfl

/-- C9: every entry of the built-in overload catalog is structurally valid:
for each of the 8 profile indices the entry's `profile` equals its index,
its threshold is at most 100, REJECT and BACKPRESSURE entries have
`shed_max = 0`, the SHED_OLDEST entry has `shed_max > 0` and degrade class
SHED_TAIL, the fixture count is between 1 and 4, and the parity-gate and
rationale pointers are non-NULL; consequently
`asx_overload_catalog_validate` reports `valid = 1` and
`violation_count = 0`. -/
theorem C9_overload_catalog_structural :
    (∀ i : Fin 8,
      (g_catalog i.val).profile = (i.val : Int) ∧
      (g_catalog i.val).threshold_pct ≤ 100 ∧
      (((g_catalog i.val).mode = ASX_OVERLOAD_REJECT ∨
        (g_catalog i.val).mode = ASX_OVERLOAD_BACKPRESSURE) →
          (g_catalog i.val).shed_max = 0) ∧
      ((g_catalog i.val).mode = ASX_OVERLOAD_SHED_OLDEST →
        0 < (g_catalog i.val).shed_max ∧
        (g_catalog i.val).degrade = ASX_DEGRADE_SHED_TAIL) ∧
      1 ≤ (g_catalog i.val).fixtures.fixture_count ∧
      (g_catalog i.val).fixtures.fixture_count ≤ 4 ∧
      (g_catalog i.val).fixtures.parity_gate ≠ none ∧
      (g_catalog i.val).rationale ≠ none ∧
      asx_overload_catalog_entry_valid (some (g_catalog i.val)) = true) ∧
    asx_overload_catalog_validate =
      { valid := 1, violation_count := 0, first_violation := "" } := by
  constructor
  · decide
  · rfl

/-- C9 witness: the HFT entry (profile index 5) is the SHED_OLDEST entry and
has a positive shed budget with degrade class SHED_TAIL. -/
theorem C9_overload_catalog_structural_witness :
    0 < (g_catalog 5).shed_max ∧
    (g_catalog 5).degrade = ASX_DEGRADE_SHED_TAIL :=
  (C9_overload_catalog_structural.1 ⟨5, by decide⟩).2.2.2.1 (by decide)
